import Mathlib

/-!
Shallow embedding of the run-orchestration core of the prokodo CLI:
the transport client (`ApiClient.request` retry loop), the generic poll
engine (`poll`), the log cursor streamer (`streamLogs`), the verify
command's terminal-state handling (`finishRun`), and the verify argument
classifier (`isNpmPackageArg`).

Machine-visible effects (HTTP attempts, sleeps, emitted output, exit
codes) are reified as event traces so that temporal claims ("never
queried", "no wait inserted", "exactly N+1 attempts") become statements
about lists of events.
-/

namespace Prokodo

/-! ## Transport client (`ApiClient`, src/lib/apiClient.ts) -/

/-- Typed request error thrown by the transport client.
Mirrors `class ApiRequestError extends Error` with fields
`statusCode`, `code`, `message`, `requestId`. -/
structure ApiRequestError where
  statusCode : Nat
  code : String
  message : String
  requestId : String
deriving Repr, DecidableEq

/-- The `{error, message, requestId}` body produced by
`ApiClient.parseError` for a non-2xx response. -/
structure ApiErrorBody where
  error : String
  message : String
  requestId : String
deriving Repr, DecidableEq

/-- One HTTP response as the retry loop observes it: the status code, the
`retry-after` response header (`response.headers.get('retry-after')`,
`none` when absent), the error body `parseError` would decode, and the
decoded JSON value for the success path (`response.json()`). -/
structure FetchResponse (α : Type) where
  status : Nat
  retryAfter : Option String
  errorBody : ApiErrorBody
  value : α
deriving Repr, DecidableEq

/-- Outcome of one `fetch` call: either a response, or a thrown
transport-level error (connection failure, abort-timeout, or a body
decode that threw) which the `catch` block sees. -/
inductive FetchOutcome (α : Type) where
  | resp (r : FetchResponse α)
  | thrown (msg : String)
deriving Repr, DecidableEq

/-- What `lastError` holds between loop iterations: either a network-level
failure (any non-`ApiRequestError` value) or a typed request error,
mirroring the `lastError instanceof ApiRequestError` dispatch. -/
inductive LastErr where
  | net (msg : String)
  | api (e : ApiRequestError)
deriving Repr, DecidableEq

/-- Final outcome of `ApiClient.request`: a resolved value (`none` models
the `undefined` result of a 204), a thrown `ApiRequestError`, or the
generic `Request failed after N retries` error wrapping the last
network-level failure. -/
inductive RequestResult (α : Type) where
  | ok (value : Option α)
  | apiError (e : ApiRequestError)
  | genericError (maxRetries : Nat) (lastMsg : String)
deriving Repr, DecidableEq

/-- Observable events of one `request` call: an HTTP attempt (one `fetch`
invocation, numbered by the loop counter) or a sleep of the given
duration in milliseconds. -/
inductive Ev where
  | fetch (attempt : Nat)
  | sleep (ms : Nat)
deriving Repr, DecidableEq

/-- Exponential backoff of the transport client, from
`function backoffMs(attempt) { return Math.min(1000 * 2 ** attempt, 10_000); }`. -/
def backoffMs (attempt : Nat) : Nat :=
  min (1000 * 2 ^ attempt) 10000

/-- String prefix test over the character list (the core `String`
functions recurse on byte positions, which a kernel evaluation cannot
unfold; the character-list versions are extensionally the same on the
strings involved here). -/
def strStartsWith (s p : String) : Bool :=
  p.data.isPrefixOf s.data

/-- String suffix test over the character list. -/
def strEndsWith (s p : String) : Bool :=
  p.data.reverse.isPrefixOf s.data.reverse

/-- Character membership test over the character list. -/
def strContains (s : String) (c : Char) : Bool :=
  s.data.contains c

/-- JavaScript `Number(s)` on the fragment the client exercises:
non-negative decimal integer strings parse to their value, everything
else is treated as `NaN`, i.e. `none`, so the `isFinite` guard fails. -/
def parseJsNumber (s : String) : Option Nat :=
  if s.data ≠ [] ∧ s.data.all Char.isDigit then
    some (s.data.foldl (fun acc c => acc * 10 + (c.toNat - 48)) 0)
  else none

/-- The sleep performed by the 429 handler:
`const retryAfter = Number(response.headers.get('retry-after') ?? '5');`
`const wait = isFinite(retryAfter) ? retryAfter * 1000 : 5_000;`. -/
def retryAfterWaitMs (header : Option String) : Nat :=
  match parseJsNumber (header.getD "5") with
  | some n => n * 1000
  | none => 5000

/-- The `ApiRequestError` built from a non-2xx response:
`new ApiRequestError(response.status, err.error, err.message, err.requestId)`. -/
def requestErrorOf {α : Type} (r : FetchResponse α) : ApiRequestError :=
  ⟨r.status, r.errorBody.error, r.errorBody.message, r.errorBody.requestId⟩

/-- Falling out of the retry loop:
`if (lastError instanceof ApiRequestError) throw lastError;`
`throw new Error("Request failed after N retries: " + String(lastError))`.
The `none` case (no attempt ever ran) is unreachable from `request`. -/
def requestExit {α : Type} (maxRetries : Nat) (last : Option LastErr) :
    List Ev × RequestResult α :=
  match last with
  | some (.api e) => ([], .apiError e)
  | some (.net m) => ([], .genericError maxRetries m)
  | none => ([], .genericError maxRetries "undefined")

/-- The retry loop of `ApiClient.request`, one recursive step per
iteration of `for (let attempt = 0; attempt <= maxRetries; attempt++)`.
`f` gives the outcome of the `fetch` on each attempt. The `fuel`
argument only bounds the recursion: `request` supplies
`maxRetries + 1`, which equals the number of remaining loop iterations
at `attempt = 0`, so the fuel-0 exit coincides with the loop's own
`attempt > maxRetries` exit and is never taken early. -/
def requestGo {α : Type} (maxRetries : Nat) (f : Nat → FetchOutcome α) :
    Nat → Nat → Option LastErr → List Ev × RequestResult α
  | 0, _, last => requestExit maxRetries last
  | fuel + 1, attempt, last =>
    if attempt ≤ maxRetries then
      let pre : List Ev :=
        if attempt = 0 then [] else [.sleep (backoffMs (attempt - 1))]
      match f attempt with
      | .thrown msg =>
        let r := requestGo maxRetries f fuel (attempt + 1) (some (.net msg))
        (pre ++ .fetch attempt :: r.1, r.2)
      | .resp resp =>
        if resp.status = 429 then
          let r := requestGo maxRetries f fuel (attempt + 1)
            (some (.api ⟨429, "rate_limited", "Rate limited", ""⟩))
          (pre ++ .fetch attempt :: .sleep (retryAfterWaitMs resp.retryAfter) :: r.1, r.2)
        else if 400 ≤ resp.status ∧ resp.status < 500 then
          (pre ++ [.fetch attempt], .apiError (requestErrorOf resp))
        else if 500 ≤ resp.status then
          let r := requestGo maxRetries f fuel (attempt + 1)
            (some (.api (requestErrorOf resp)))
          (pre ++ .fetch attempt :: r.1, r.2)
        else if resp.status = 204 then
          (pre ++ [.fetch attempt], .ok none)
        else
          (pre ++ [.fetch attempt], .ok (some resp.value))
    else requestExit maxRetries last

/-- Embedding of `ApiClient.request`: run the retry loop from attempt 0 with no
recorded error, returning the event trace and the outcome. -/
def request {α : Type} (maxRetries : Nat) (f : Nat → FetchOutcome α) :
    List Ev × RequestResult α :=
  requestGo maxRetries f (maxRetries + 1) 0 none

/-- Whether an event is an HTTP attempt. -/
def isFetchEv : Ev → Bool
  | .fetch _ => true
  | .sleep _ => false

/-- Number of HTTP attempts in a trace. -/
def attemptCount (tr : List Ev) : Nat :=
  tr.countP isFetchEv

/-- Accumulated sleep durations between consecutive HTTP attempts: entry
`k` of the resulting list is the total milliseconds slept after attempt
`k - 1` and before attempt `k` (entry 0 is the wait before the first
attempt). -/
def waitsGo : List Ev → Nat → List Nat
  | [], _ => []
  | .sleep m :: r, acc => waitsGo r (acc + m)
  | .fetch _ :: r, acc => acc :: waitsGo r 0

/-- Total wait inserted before HTTP attempt `k` of a trace. -/
def waitBeforeFetch (tr : List Ev) (k : Nat) : Option Nat :=
  (waitsGo tr 0)[k]?

/-! ## Generic poll engine (`poll`, src/lib/poll.ts) -/

/-- Error thrown when the poll deadline is exceeded, mirroring
`new PollTimeoutError(label, timeoutMs)`; the constructor receives the
configured label and total timeout. -/
structure PollTimeoutError where
  label : String
  timeoutMs : Int
deriving Repr, DecidableEq

/-- Options of `poll`, mirroring `PollOptions<T>`: the probe `fn` gives
the result of its `k`-th call (`none` models a `null` result), `fnDur`
the virtual time each probe call consumes (the loop re-reads
`Date.now()` after every `await fn()`), and the remaining fields carry
the source defaults 1000 / 10000 / "poll". -/
structure PollOptions (α : Type) where
  fn : Nat → Option α
  fnDur : Nat → Nat
  isDone : α → Bool
  timeoutMs : Int
  initialIntervalMs : Nat := 1000
  maxIntervalMs : Nat := 10000
  label : String := "poll"

/-- Observable events of one `poll` call: a probe invocation (numbered,
with the virtual time at which it starts) or a sleep. -/
inductive PollEv where
  | probe (k : Nat) (t : Int)
  | sleep (ms : Int)
deriving Repr, DecidableEq

/-- Outcome of `poll`: the first done value, or a thrown
`PollTimeoutError`. -/
inductive PollOutcome (α : Type) where
  | done (v : α)
  | timedOut (e : PollTimeoutError)
deriving Repr, DecidableEq

/-- The done test `value !== null && isDone(value)`, returning the value
when it holds. -/
def doneValue {α : Type} (isDone : α → Bool) (v : Option α) : Option α :=
  match v with
  | some x => if isDone x then some x else none
  | none => none

/-- The `while (Date.now() < deadline)` loop of `poll`, one recursive
step per iteration over virtual time `now`. The `fuel` argument only
bounds the recursion (the source loop has no fuel): `poll` supplies
`timeoutMs.toNat + 1`, and whenever the configured intervals are at
least 1 ms every iteration advances `now` by at least 1 ms, so the
fuel-0 answer `none` is never reached (proved in the timeout theorem).
Within an iteration: probe, return the value if done, recompute the
remaining time, stop if it is spent, otherwise sleep
`min(interval, remaining)` and double the interval up to the cap. -/
def pollGo {α : Type} (o : PollOptions α) (deadline : Int) :
    Nat → Int → Nat → Nat → List PollEv × Option (PollOutcome α)
  | 0, now, _, _ =>
    if now < deadline then ([], none)
    else ([], some (.timedOut ⟨o.label, o.timeoutMs⟩))
  | fuel + 1, now, interval, k =>
    if now < deadline then
      match doneValue o.isDone (o.fn k) with
      | some x => ([.probe k now], some (.done x))
      | none =>
        let now2 := now + (o.fnDur k : Int)
        let remaining := deadline - now2
        if remaining ≤ 0 then
          ([.probe k now], some (.timedOut ⟨o.label, o.timeoutMs⟩))
        else
          let wait := min (interval : Int) remaining
          let r := pollGo o deadline fuel (now2 + wait)
            (min (interval * 2) o.maxIntervalMs) (k + 1)
          (.probe k now :: .sleep wait :: r.1, r.2)
    else ([], some (.timedOut ⟨o.label, o.timeoutMs⟩))

/-- Embedding of `poll`: compute the absolute deadline `Date.now() + timeoutMs` at
start (`t0` is the virtual start time) and run the loop. -/
def poll {α : Type} (o : PollOptions α) (t0 : Int) :
    List PollEv × Option (PollOutcome α) :=
  pollGo o (t0 + o.timeoutMs) (o.timeoutMs.toNat + 1) t0 o.initialIntervalMs 0

/-- Whether an event is a probe invocation. -/
def isProbeEv : PollEv → Bool
  | .probe _ _ => true
  | .sleep _ => false

/-- Number of probe invocations in a poll trace. -/
def probeCount (tr : List PollEv) : Nat :=
  tr.countP isProbeEv

/-- Every probe invocation in the trace starts strictly before time `d`. -/
def probesBefore (tr : List PollEv) (d : Int) : Bool :=
  tr.all fun e =>
    match e with
    | .probe _ t => decide (t < d)
    | .sleep _ => true

/-! ## Run data model (src/types/api.ts) -/

/-- Run states, from `type RunStatus`. -/
inductive RunStatus where
  | queued
  | running
  | success
  | failed
  | timeout
  | rejected
deriving Repr, DecidableEq

/-- Status-poll response, from `interface RunStatusResponse`; only the
fields the terminal-state handler reads are carried. The reason code is
kept as a string because the handler looks it up in a string-keyed
record with a string fallback. -/
structure RunStatusResponse where
  runId : String
  status : RunStatus
  reasonCode : Option String
deriving Repr, DecidableEq

/-- One named check of a result, from `interface CheckResult`. -/
structure CheckResult where
  name : String
  passed : Bool
  message : Option String
deriving Repr, DecidableEq

/-- Structured outcome of a terminal run, from
`interface RunResultResponse`. -/
structure RunResultResponse where
  runId : String
  passed : Bool
  summary : String
  checks : List CheckResult
  creditsUsed : Nat
deriving Repr, DecidableEq

/-- One remote log line, from `interface LogLine`. -/
structure LogLine where
  seq : Nat
  ts : String
  level : String
  msg : String
deriving Repr, DecidableEq

/-- One log batch, from `interface LogsResponse`. `nextCursor` is an
option because the streamer guards it with `?? cursor`. -/
structure LogsResponse where
  lines : List LogLine
  nextCursor : Option String
  done : Bool
deriving Repr, DecidableEq

/-! ## Log cursor streamer (`streamLogs`, src/commands/verify.ts) -/

/-- A log line written to stderr by `logLine(line.level, line.ts,
line.msg)`. -/
inductive LogEmit where
  | line (level : String) (ts : String) (msg : String)
deriving Repr, DecidableEq

/-- Embedding of `streamLogs(client, runId, cursor, jsonMode)`: the transport call's
outcome is passed in as `fetchLogs` (`Except.error` models the call
throwing). On success, emit every line of the batch (unless in JSON
mode) and return `logs.nextCursor ?? cursor`; on any failure, swallow
it and return the previous cursor with nothing emitted. The function is
total — it never propagates a failure to its caller. -/
def streamLogs (fetchLogs : Except String LogsResponse) (cursor : String)
    (jsonMode : Bool) : String × List LogEmit :=
  match fetchLogs with
  | .error _ => (cursor, [])
  | .ok logs =>
    (logs.nextCursor.getD cursor,
     if jsonMode then []
     else logs.lines.map fun l => .line l.level l.ts l.msg)

/-- One tick of the verify command's poll probe
(`fn: async () => { if (opts.logs) logCursor = await streamLogs(...);
return client.get(statusUrl); }`): update the cursor via `streamLogs`,
then return the status call's outcome, which is independent of the log
fetch. -/
def verifyTick (logsEnabled : Bool) (fetchLogs : Except String LogsResponse)
    (statusFetch : Except String RunStatusResponse) (cursor : String)
    (jsonMode : Bool) :
    String × List LogEmit × Except String RunStatusResponse :=
  if logsEnabled then
    let s := streamLogs fetchLogs cursor jsonMode
    (s.1, s.2, statusFetch)
  else (cursor, [], statusFetch)

/-! ## Verify orchestrator — terminal-state handling
(`registerVerifyCommand`, src/commands/verify.ts, sections 6-8) -/

/-- Structured JSON payloads emitted by `emitJson` in the terminal-state
handler. -/
inductive JsonPayload where
  | runRejected (error : String) (runId : String) (reasonCode : String)
  | resultOut (result : RunResultResponse) (status : RunStatus)
  | apiErr (error : String) (message : String) (statusCode : Nat)
  | netErr (error : String) (message : String)
deriving Repr, DecidableEq

/-- Observable events of the terminal-state handler: the GET to the
structured result endpoint, emitted JSON, stdout/stderr lines, and the
final `process.exit`. -/
inductive OrchEv where
  | getResult (runId : String)
  | emitJson (p : JsonPayload)
  | successLine (msg : String)
  | errorLine (msg : String)
  | infoLine (msg : String)
  | exitCode (c : Nat)
deriving Repr, DecidableEq

/-- An error caught by the orchestrator's try/catch: either a typed
`ApiRequestError` or any other thrown value, mirroring the
`err instanceof ApiRequestError` dispatch of `handleApiError`. -/
inductive CaughtError where
  | api (e : ApiRequestError)
  | other (message : String)
deriving Repr, DecidableEq

/-- The `messages` record of the rejected-run branch, keyed by reason
code; `none` for a key outside the record. -/
def rejectionMessages (reason : String) : Option String :=
  if reason = "INSUFFICIENT_CREDITS" then
    some "Insufficient credits. Purchase credits at marketplace.prokodo.com."
  else if reason = "NOT_IMPLEMENTED" then
    some "Verify pipeline is not yet available. Check back soon."
  else if reason = "CONCURRENCY_CAP_REACHED" then
    some "Worker at capacity. Retry shortly."
  else if reason = "INVALID_PAYLOAD" then
    some "Run rejected: invalid payload."
  else if reason = "RUNNER_ERROR" then
    some "Run rejected due to an internal error."
  else if reason = "TIMEOUT" then
    some "Run timed out."
  else none

/-- The user-facing message for a rejection reason:
`messages[reason] ?? "Run rejected: " + reason`. -/
def rejectionMessage (reason : String) : String :=
  (rejectionMessages reason).getD ("Run rejected: " ++ reason)

/-- Embedding of `handleApiError(err, jsonMode)`: map a caught error to output events
and `process.exit(1)`. -/
def handleApiError (err : CaughtError) (jsonMode : Bool) : List OrchEv :=
  (match err with
   | .api e =>
     if jsonMode then
       [.emitJson (.apiErr e.code e.message e.statusCode)]
     else if e.statusCode = 401 ∨ e.statusCode = 403 then
       [.errorLine s!"Authentication failed ({e.statusCode}): {e.message}",
        .infoLine "Run \"prokodo auth login --key <key>\" to update your credentials."]
     else if e.statusCode = 402 then
       [.errorLine "Insufficient credits. Purchase credits at marketplace.prokodo.com."]
     else if e.statusCode = 409 then
       [.errorLine "A verification is already in progress for this project."]
     else if e.statusCode = 503 then
       [.errorLine s!"Service unavailable: {e.message}. Retry shortly."]
     else
       [.errorLine s!"API error {e.statusCode}: {e.message}"]
   | .other msg =>
     if jsonMode then [.emitJson (.netErr "network_error" msg)]
     else [.errorLine s!"Network error: {msg}"]) ++ [.exitCode 1]

/-- Embedding of `printResult(result)`: the human-readable result rendering. -/
def printResult (result : RunResultResponse) : List OrchEv :=
  (if result.passed then
    [.successLine s!"Verification passed: {result.summary}"]
   else
    [.errorLine s!"Verification failed: {result.summary}"]) ++
  (result.checks.map fun c =>
    .infoLine ((if c.passed then "  ✓ " else "  ✗ ") ++ c.name ++
      (match c.message with
       | some m => " — " ++ m
       | none => ""))) ++
  [.infoLine "", .infoLine s!"Credits used: {result.creditsUsed}"]

/-- Sections 6-8 of the verify command after the status poll resolved:
handle a rejected run before fetching the result (map the reason code —
substituting `RUNNER_ERROR` when absent — to a JSON payload or message,
exit 1), otherwise issue the GET for the structured result endpoint
(its outcome is passed in as `resultFetch`), handle its failure via
`handleApiError`, and otherwise report the result and exit
`result.passed ? 0 : 1`. -/
def finishRun (jsonMode : Bool) (runId : String)
    (finalStatus : RunStatusResponse)
    (resultFetch : Except CaughtError RunResultResponse) : List OrchEv :=
  if finalStatus.status = .rejected then
    let reason := finalStatus.reasonCode.getD "RUNNER_ERROR"
    (if jsonMode then [.emitJson (.runRejected "run_rejected" runId reason)]
     else [.errorLine (rejectionMessage reason)]) ++ [.exitCode 1]
  else
    .getResult runId ::
    match resultFetch with
    | .error e => handleApiError e jsonMode
    | .ok result =>
      (if jsonMode then [.emitJson (.resultOut result finalStatus.status)]
       else printResult result) ++
      [.exitCode (if result.passed then 0 else 1)]

/-- Whether a trace contains a GET of the structured result endpoint. -/
def hasResultFetch (tr : List OrchEv) : Bool :=
  tr.any fun e =>
    match e with
    | .getResult _ => true
    | _ => false

/-! ## Verify argument classifier (`isNpmPackageArg`,
src/commands/verify.ts) -/

/-- Embedding of `isNpmPackageArg(arg)`: true when the positional verify argument
looks like an npm package name rather than a file path. -/
def isNpmPackageArg (arg : String) : Bool :=
  if strStartsWith arg "@" then true
  else if strStartsWith arg "." || strStartsWith arg "/" || strStartsWith arg "\\" then false
  else if strEndsWith arg ".json" || strEndsWith arg ".js" || strEndsWith arg ".ts" then false
  else if strContains arg '/' || strContains arg '\\' then false
  else true

/-- How the verify command treats its positional argument. -/
inductive VerifyArgMode where
  | localProject
  | npmPackage (ref : String)
  | usageError (exitCode : Nat)
deriving Repr, DecidableEq

/-- Section 2 of the verify command: the guard `if (file)` is JavaScript
truthiness, so an absent argument and the empty string both mean
local-project mode; a package-shaped non-empty argument enters
npm-package mode; anything else is rejected with `fatal(..., 2)`, i.e.
a usage error with exit code 2. -/
def classifyVerifyArg (file : Option String) : VerifyArgMode :=
  match file with
  | none => .localProject
  | some f =>
    if f = "" then .localProject
    else if isNpmPackageArg f then .npmPackage f else .usageError 2

/-- Modelled from the claim's words, for comparison with
`isNpmPackageArg`: a package reference starts with `@`, or is a bare
identifier containing no path separators and not ending in a
source-file extension. -/
def claimPackageRef (arg : String) : Bool :=
  strStartsWith arg "@" ||
    (!(strContains arg '/') && !(strContains arg '\\') &&
     !(strEndsWith arg ".json") && !(strEndsWith arg ".js") && !(strEndsWith arg ".ts"))

/-! ## Concrete inputs used by witnesses and counterexamples -/

/-- Fetch sequence: a 429 with `Retry-After: 0` on the first attempt,
then a plain 200. -/
def cexFetch : Nat → FetchOutcome Unit
  | 0 => .resp ⟨429, some "0", ⟨"rate_limited", "Too Many Requests", ""⟩, ()⟩
  | _ => .resp ⟨200, none, ⟨"", "", ""⟩, ()⟩

/-- A 500 response with a typed error body. -/
def resp500 : FetchResponse Unit :=
  ⟨500, none, ⟨"server_error", "boom", "r9"⟩, ()⟩

/-- A 401 response with a typed error body. -/
def resp401 : FetchResponse Unit :=
  ⟨401, none, ⟨"invalid_key", "Unauthorized", "r1"⟩, ()⟩

/-- Poll options whose probe never returns a done value: tiny timeout
and intervals so a kernel evaluation stays small. -/
def neverDoneOpts : PollOptions Nat :=
  { fn := fun _ => none, fnDur := fun _ => 0, isDone := fun _ => false,
    timeoutMs := 3, initialIntervalMs := 1, maxIntervalMs := 2, label := "w6" }

/-- Poll options with a zero total timeout whose probe would succeed on
its very first call — if it were ever made. -/
def zeroTimeoutOpts : PollOptions Nat :=
  { fn := fun _ => some 7, fnDur := fun _ => 0, isDone := fun _ => true,
    timeoutMs := 0, label := "w9" }

end Prokodo

namespace Prokodo

/-! ## Theorems -/

set_option maxRecDepth 4000

/-- Counting HTTP attempts across the sleep prefix and the fetch event
of one loop iteration. -/
theorem attemptCount_iter (a : Nat) (t : List Ev) :
    attemptCount ((if a = 0 then ([] : List Ev)
      else [.sleep (backoffMs (a - 1))]) ++ .fetch a :: t) =
      attemptCount t + 1 := by
  by_cases h : a = 0 <;>
    simp [h, attemptCount, List.countP_cons, List.countP_append, isFetchEv]

/-- C3: the retry backoff delay before attempt `k+1` equals
`min(1000 × 2^k, 10000)` ms for every `k`; the delays for `k = 0..4`
are 1000, 2000, 4000, 8000, 10000 ms and 10000 thereafter, so the
sequence is non-decreasing and capped at 10000 ms. -/
theorem backoffMs_spec :
    (∀ k, backoffMs k = min (1000 * 2 ^ k) 10000) ∧
    backoffMs 0 = 1000 ∧ backoffMs 1 = 2000 ∧ backoffMs 2 = 4000 ∧
    backoffMs 3 = 8000 ∧ backoffMs 4 = 10000 ∧
    (∀ k, backoffMs (k + 4) = 10000) ∧
    (∀ k, backoffMs k ≤ backoffMs (k + 1)) ∧
    (∀ k, backoffMs k ≤ 10000) := by
  refine ⟨fun k => rfl, by decide, by decide, by decide, by decide, by decide,
    ?_, ?_, fun k => min_le_right _ _⟩
  · intro k
    have h16 : (16 : Nat) ≤ 2 ^ (k + 4) := by
      calc (16 : Nat) = 2 ^ 4 := by norm_num
        _ ≤ 2 ^ (k + 4) := Nat.pow_le_pow_right (by norm_num) (by omega)
    have h : 10000 ≤ 1000 * 2 ^ (k + 4) := by
      have := Nat.mul_le_mul_left 1000 h16
      omega
    simpa [backoffMs] using Nat.min_eq_right h
  · intro k
    have h : 1000 * 2 ^ k ≤ 1000 * 2 ^ (k + 1) :=
      Nat.mul_le_mul_left 1000 (Nat.pow_le_pow_right (by norm_num) (by omega))
    exact min_le_min h (le_refl _)

/-- C7: when fetching the next log batch fails, `streamLogs` swallows
the failure, returning the previous cursor unchanged and emitting
nothing — and since it returns normally, the surrounding poll tick's
status outcome is unchanged by the failure. -/
theorem streamLogs_swallows_failure (e : String) (cursor : String) (jm : Bool) :
    streamLogs (.error e) cursor jm = (cursor, []) ∧
    (∀ sf : Except String RunStatusResponse,
      verifyTick true (.error e) sf cursor jm = (cursor, [], sf)) := by
  exact ⟨rfl, fun sf => rfl⟩

/-- C2: for a run whose polled terminal status is `rejected`, the
terminal-state handler never issues the GET for the structured result
endpoint; it maps the rejection reason (defaulted to `RUNNER_ERROR`) to
a JSON payload or user-facing message and exits with status 1. -/
theorem rejected_skips_result_fetch (jm : Bool) (rid : String)
    (st : RunStatusResponse) (rf : Except CaughtError RunResultResponse)
    (h : st.status = .rejected) :
    hasResultFetch (finishRun jm rid st rf) = false ∧
    finishRun jm rid st rf =
      (if jm then
        [.emitJson (.runRejected "run_rejected" rid
          (st.reasonCode.getD "RUNNER_ERROR"))]
       else [.errorLine (rejectionMessage (st.reasonCode.getD "RUNNER_ERROR"))]) ++
      [.exitCode 1] := by
  have heq : finishRun jm rid st rf =
      (if jm then
        [OrchEv.emitJson (.runRejected "run_rejected" rid
          (st.reasonCode.getD "RUNNER_ERROR"))]
       else [OrchEv.errorLine (rejectionMessage (st.reasonCode.getD "RUNNER_ERROR"))]) ++
      [OrchEv.exitCode 1] := by
    simp [finishRun, h]
  refine ⟨?_, heq⟩
  rw [heq]
  cases jm <;> simp [hasResultFetch]

/-- C2 witness: a rejected run with reason `INSUFFICIENT_CREDITS` in
human mode skips the result fetch, prints the purchase guidance and
exits 1. -/
theorem rejected_skips_result_fetch_witness :
    hasResultFetch (finishRun false "r1" ⟨"r1", .rejected,
      some "INSUFFICIENT_CREDITS"⟩ (.error (.other "unused"))) = false ∧
    finishRun false "r1" ⟨"r1", .rejected, some "INSUFFICIENT_CREDITS"⟩
        (.error (.other "unused")) =
      [.errorLine "Insufficient credits. Purchase credits at marketplace.prokodo.com.",
       .exitCode 1] :=
  rejected_skips_result_fetch false "r1"
    ⟨"r1", .rejected, some "INSUFFICIENT_CREDITS"⟩ (.error (.other "unused")) rfl

/-- C10: a rejected run whose status response carries no reason code is
reported with the substituted reason `RUNNER_ERROR`: JSON mode emits
reasonCode RUNNER_ERROR, human mode prints the internal-error message,
and the handler exits with code 1. -/
theorem rejected_missing_reason_defaults (jm : Bool) (rid : String)
    (st : RunStatusResponse) (rf : Except CaughtError RunResultResponse)
    (h : st.status = .rejected) (h2 : st.reasonCode = none) :
    finishRun jm rid st rf =
      (if jm then [.emitJson (.runRejected "run_rejected" rid "RUNNER_ERROR")]
       else [.errorLine "Run rejected due to an internal error."]) ++
      [.exitCode 1] := by
  cases jm <;>
    simp [finishRun, h, h2, rejectionMessage, rejectionMessages]

/-- C10 witness: both output modes at a concrete rejected status with no
reason code. -/
theorem rejected_missing_reason_defaults_witness :
    finishRun true "r2" ⟨"r2", .rejected, none⟩ (.error (.other "unused")) =
      [.emitJson (.runRejected "run_rejected" "r2" "RUNNER_ERROR"), .exitCode 1] ∧
    finishRun false "r2" ⟨"r2", .rejected, none⟩ (.error (.other "unused")) =
      [.errorLine "Run rejected due to an internal error.", .exitCode 1] :=
  ⟨rejected_missing_reason_defaults true "r2" ⟨"r2", .rejected, none⟩
      (.error (.other "unused")) rfl rfl,
   rejected_missing_reason_defaults false "r2" ⟨"r2", .rejected, none⟩
      (.error (.other "unused")) rfl rfl⟩

/-- C8 counterexample: the argument `.gitignore` contains no path
separator and does not end in a source-file extension, so the claim's
shape characterization calls it a package reference, but the code
rejects every argument that starts with a dot and treats it as an
unsupported file-path argument (usage error, exit code 2). -/
theorem verifyArg_claim_counterexample :
    claimPackageRef ".gitignore" = true ∧
    isNpmPackageArg ".gitignore" = false ∧
    classifyVerifyArg (some ".gitignore") = .usageError 2 := by
  decide

/-- C8 amended: an absent or empty positional verify argument (the
source's `if (file)` truthiness guard) selects local-project mode; a
non-empty argument is a package reference iff it starts with `@`, or
it starts with none of `.`, `/`, `\`, contains no path separator, and
does not end in `.json`, `.js` or `.ts`; every other non-empty
argument is rejected as a usage error with exit code 2. -/
theorem verifyArg_classification (s : String) :
    isNpmPackageArg s =
      (strStartsWith s "@" ||
        (!(strStartsWith s ".") && !(strStartsWith s "/") &&
         !(strStartsWith s "\\") &&
         !(strContains s '/') && !(strContains s '\\') &&
         !(strEndsWith s ".json") && !(strEndsWith s ".js") &&
         !(strEndsWith s ".ts"))) ∧
    classifyVerifyArg (some s) =
      (if s = "" then .localProject
       else if isNpmPackageArg s then .npmPackage s else .usageError 2) ∧
    classifyVerifyArg none = .localProject ∧
    classifyVerifyArg (some "") = .localProject := by
  refine ⟨?_, rfl, rfl, by decide⟩
  · unfold isNpmPackageArg
    cases h1 : strStartsWith s "@" <;>
    cases h2 : strStartsWith s "." <;>
    cases h3 : strStartsWith s "/" <;>
    cases h4 : strStartsWith s "\\" <;>
    cases h5 : strEndsWith s ".json" <;>
    cases h6 : strEndsWith s ".js" <;>
    cases h7 : strEndsWith s ".ts" <;>
    cases h8 : strContains s '/' <;>
    cases h9 : strContains s '\\' <;>
    simp_all

/-- Invariant of the retry loop under persistent 5xx responses: from any
attempt `a` with `fuel` matching the remaining iteration count, the
loop performs exactly `fuel` further HTTP attempts and ends by throwing
the typed error of the final attempt `N`. -/
theorem requestGo_all5xx {α : Type} (N : Nat) (g : Nat → FetchResponse α)
    (h5 : ∀ k, k ≤ N → 500 ≤ (g k).status) :
    ∀ fuel a last, a + fuel = N + 1 → 1 ≤ fuel →
      attemptCount (requestGo N (fun k => .resp (g k)) fuel a last).1 = fuel ∧
      (requestGo N (fun k => .resp (g k)) fuel a last).2 =
        .apiError (requestErrorOf (g N)) := by
  intro fuel
  induction fuel with
  | zero => intro a last _ h1; omega
  | succ m ih =>
    intro a last hsum _
    have ha : a ≤ N := by omega
    have hst := h5 a ha
    simp only [requestGo, if_pos ha]
    rw [if_neg (by omega : ¬ (g a).status = 429)]
    rw [if_neg (by omega : ¬ (400 ≤ (g a).status ∧ (g a).status < 500))]
    rw [if_pos hst]
    cases m with
    | zero =>
      have haN : a = N := by omega
      subst haN
      simp only [requestGo, requestExit]
      exact ⟨attemptCount_iter a [], trivial⟩
    | succ m' =>
      have hrec := ih (a + 1) (some (.api (requestErrorOf (g a))))
        (by omega) (by omega)
      refine ⟨?_, hrec.2⟩
      rw [attemptCount_iter a _, hrec.1]

/-- C1: with the maximum retry count configured to `N`, a transport
request that receives a 5xx response on every attempt performs exactly
`N + 1` HTTP attempts and then fails by surfacing the typed request
error of the last attempt. -/
theorem request_persistent_5xx {α : Type} (N : Nat) (g : Nat → FetchResponse α)
    (h5 : ∀ k, k ≤ N → 500 ≤ (g k).status) :
    attemptCount (request N (fun k => .resp (g k))).1 = N + 1 ∧
    (request N (fun k => .resp (g k))).2 = .apiError (requestErrorOf (g N)) :=
  requestGo_all5xx N g h5 (N + 1) 0 none (by omega) (by omega)

/-- C1 witness: `maxRetries = 1` and a constant 500 response gives 2
attempts and surfaces the typed 500 error. -/
theorem request_persistent_5xx_witness :
    attemptCount (request 1 (fun _ => FetchOutcome.resp resp500)).1 = 2 ∧
    (request 1 (fun _ => FetchOutcome.resp resp500)).2 =
      .apiError ⟨500, "server_error", "boom", "r9"⟩ :=
  request_persistent_5xx 1 (fun _ => resp500) (fun _ _ => Nat.le_refl 500)

/-- C5: a transport request whose first attempt receives a 4xx response
other than 429 makes exactly one HTTP attempt and fails immediately
with a typed request error carrying that status; no retry and no sleep
occurs. -/
theorem request_4xx_single_attempt {α : Type} (N : Nat)
    (f : Nat → FetchOutcome α) (r : FetchResponse α)
    (hf : f 0 = .resp r) (h400 : 400 ≤ r.status)
    (h500 : r.status < 500) (h429 : r.status ≠ 429) :
    request N f = ([.fetch 0], .apiError (requestErrorOf r)) ∧
    attemptCount (request N f).1 = 1 ∧
    (requestErrorOf r).statusCode = r.status := by
  have heq : request N f = ([.fetch 0], .apiError (requestErrorOf r)) := by
    unfold request
    simp only [requestGo, if_pos (Nat.zero_le N), hf]
    rw [if_neg h429, if_pos ⟨h400, h500⟩]
    simp
  exact ⟨heq, by rw [heq]; rfl, rfl⟩

/-- C5 witness: a single 401 response at `maxRetries = 3`. -/
theorem request_4xx_single_attempt_witness :
    request 3 (fun _ => FetchOutcome.resp resp401) =
      ([.fetch 0], .apiError ⟨401, "invalid_key", "Unauthorized", "r1"⟩) ∧
    attemptCount (request 3 (fun _ => FetchOutcome.resp resp401)).1 = 1 ∧
    (401 : Nat) = 401 :=
  request_4xx_single_attempt 3 (fun _ => FetchOutcome.resp resp401) resp401
    rfl (by decide) (by decide) (by decide)

/-- Every iteration of the retry loop that runs (attempt within budget,
fuel available) starts with the backoff sleep prefix followed by its
HTTP attempt. -/
theorem requestGo_head {α : Type} (N : Nat) (f : Nat → FetchOutcome α)
    (fuel a : Nat) (last : Option LastErr) (ha : a ≤ N) :
    ∃ rest, (requestGo N f (fuel + 1) a last).1 =
      (if a = 0 then ([] : List Ev) else [.sleep (backoffMs (a - 1))]) ++
        .fetch a :: rest := by
  simp only [requestGo, if_pos ha]
  cases hf : f a with
  | thrown msg => exact ⟨_, rfl⟩
  | resp r =>
    dsimp only
    by_cases h429 : r.status = 429
    · rw [if_pos h429]; exact ⟨_, rfl⟩
    · rw [if_neg h429]
      by_cases h4 : 400 ≤ r.status ∧ r.status < 500
      · rw [if_pos h4]; exact ⟨[], rfl⟩
      · rw [if_neg h4]
        by_cases h5 : 500 ≤ r.status
        · rw [if_pos h5]; exact ⟨_, rfl⟩
        · rw [if_neg h5]
          by_cases h204 : r.status = 204
          · rw [if_pos h204]; exact ⟨[], rfl⟩
          · rw [if_neg h204]; exact ⟨[], rfl⟩

/-- One iteration of the retry loop on a 429 response: sleep the
Retry-After-derived wait, record the rate-limit error, and continue
with the next attempt. -/
theorem requestGo_429_step {α : Type} (maxR : Nat) (f : Nat → FetchOutcome α)
    (fuel a : Nat) (last : Option LastErr) (r : FetchResponse α)
    (ha : a ≤ maxR) (hf : f a = .resp r) (h429 : r.status = 429) :
    requestGo maxR f (fuel + 1) a last =
      ((if a = 0 then ([] : List Ev) else [.sleep (backoffMs (a - 1))]) ++
        .fetch a :: .sleep (retryAfterWaitMs r.retryAfter) ::
        (requestGo maxR f fuel (a + 1)
          (some (.api ⟨429, "rate_limited", "Rate limited", ""⟩))).1,
       (requestGo maxR f fuel (a + 1)
          (some (.api ⟨429, "rate_limited", "Rate limited", ""⟩))).2) := by
  simp only [requestGo, if_pos ha, hf]
  rw [if_pos h429]

/-- C4 counterexample: with `Retry-After: 0` on a 429 first attempt, the
next attempt does NOT occur without material delay — the trace inserts
the zero-millisecond Retry-After sleep AND a 1000 ms backoff sleep
before attempt 1, so the wait before the next attempt is 1000 ms, not
0 ms. -/
theorem request_429_no_delay_counterexample :
    request 2 cexFetch =
      ([.fetch 0, .sleep 0, .sleep 1000, .fetch 1], .ok (some ())) ∧
    waitBeforeFetch (request 2 cexFetch).1 1 = some 1000 ∧
    (1000 : Nat) ≠ 0 := by
  decide

/-- C4 amended: on a 429 first attempt the handler sleeps exactly the
Retry-After-derived wait (0 ms for a `Retry-After: 0` header; 5000 ms
when the header is absent or non-numeric), but the regular backoff
delay `backoffMs 0 = 1000` ms is additionally inserted at the top of
the next loop iteration, so the total wait before the next attempt is
the Retry-After wait plus the backoff, never the Retry-After wait
alone. -/
theorem request_429_wait (α : Type) (N : Nat) (f : Nat → FetchOutcome α)
    (r : FetchResponse α) (hN : 1 ≤ N) (hf : f 0 = .resp r)
    (h429 : r.status = 429) :
    (∃ rest, (request N f).1 =
      .fetch 0 :: .sleep (retryAfterWaitMs r.retryAfter) ::
        .sleep (backoffMs 0) :: .fetch 1 :: rest) ∧
    waitBeforeFetch (request N f).1 1 =
      some (retryAfterWaitMs r.retryAfter + backoffMs 0) ∧
    retryAfterWaitMs (some "0") = 0 ∧
    retryAfterWaitMs none = 5000 ∧
    retryAfterWaitMs (some "notanumber") = 5000 := by
  obtain ⟨m, hm⟩ : ∃ m, N = m + 1 := ⟨N - 1, by omega⟩
  subst hm
  obtain ⟨rest, hrest⟩ := requestGo_head (m + 1) f m 1
    (some (.api ⟨429, "rate_limited", "Rate limited", ""⟩)) (by omega)
  have htr : (request (m + 1) f).1 =
      .fetch 0 :: .sleep (retryAfterWaitMs r.retryAfter) ::
        .sleep (backoffMs 0) :: .fetch 1 :: rest := by
    unfold request
    rw [requestGo_429_step (m + 1) f (m + 1) 0 none r (Nat.zero_le _) hf h429]
    rw [hrest]
    simp
  refine ⟨⟨rest, htr⟩, ?_, by decide, by decide, by decide⟩
  rw [htr]
  simp [waitBeforeFetch, waitsGo]

/-- Invariant of the poll loop when the probe never yields a done value:
as long as the interval stays at least 1 ms and the fuel bounds the
remaining virtual time, the loop ends in the timeout error carrying the
configured label and total timeout, and every probe starts strictly
before the deadline. -/
theorem pollGo_never_done {α : Type} (o : PollOptions α) (deadline : Int)
    (hnd : ∀ k, doneValue o.isDone (o.fn k) = none)
    (hmax : 1 ≤ o.maxIntervalMs) :
    ∀ (fuel : Nat) (now : Int) (interval k : Nat), 1 ≤ interval →
      deadline - now ≤ (fuel : Int) →
      (pollGo o deadline fuel now interval k).2 =
        some (.timedOut ⟨o.label, o.timeoutMs⟩) ∧
      probesBefore (pollGo o deadline fuel now interval k).1 deadline = true := by
  intro fuel
  induction fuel with
  | zero =>
    intro now interval k _ hfu
    have hlt : ¬ now < deadline := by
      simp only [Nat.cast_zero] at hfu
      omega
    simp [pollGo, hlt, probesBefore]
  | succ m ih =>
    intro now interval k hint hfu
    by_cases hlt : now < deadline
    · simp only [pollGo, if_pos hlt, hnd k]
      by_cases hrem : deadline - (now + (o.fnDur k : Int)) ≤ 0
      · rw [if_pos hrem]
        refine ⟨rfl, ?_⟩
        simp [probesBefore, hlt]
      · rw [if_neg hrem]
        have hdur : (0 : Int) ≤ (o.fnDur k : Int) := Int.ofNat_nonneg _
        have hw : (1 : Int) ≤ min (interval : Int) (deadline - (now + (o.fnDur k : Int))) := by
          have h1 : (1 : Int) ≤ (interval : Int) := by exact_mod_cast hint
          omega
        have hint2 : 1 ≤ min (interval * 2) o.maxIntervalMs :=
          Nat.le_min.mpr ⟨by omega, hmax⟩
        have hfu2 : deadline -
            (now + (o.fnDur k : Int) +
              min (interval : Int) (deadline - (now + (o.fnDur k : Int)))) ≤ (m : Int) := by
          have : (m : Int) + 1 = ((m + 1 : Nat) : Int) := by push_cast; ring
          omega
        have hrec := ih (now + (o.fnDur k : Int) +
            min (interval : Int) (deadline - (now + (o.fnDur k : Int))))
          (min (interval * 2) o.maxIntervalMs) (k + 1) hint2 hfu2
        refine ⟨hrec.1, ?_⟩
        simp [probesBefore, hlt] at hrec ⊢
        exact hrec.2
    · simp [pollGo, hlt, probesBefore]

/-- C6: when no probe result is non-null and satisfies the
done-predicate, `poll` fails with the `PollTimeoutError` carrying the
configured label and total timeout value, and the probe is never
invoked at or after the deadline. -/
theorem poll_times_out_when_never_done {α : Type} (o : PollOptions α) (t0 : Int)
    (hnd : ∀ k, doneValue o.isDone (o.fn k) = none)
    (hinit : 1 ≤ o.initialIntervalMs) (hmax : 1 ≤ o.maxIntervalMs) :
    (poll o t0).2 = some (.timedOut ⟨o.label, o.timeoutMs⟩) ∧
    probesBefore (poll o t0).1 (t0 + o.timeoutMs) = true := by
  unfold poll
  exact pollGo_never_done o (t0 + o.timeoutMs) hnd hmax
    (o.timeoutMs.toNat + 1) t0 o.initialIntervalMs 0 hinit (by push_cast; omega)

/-- C6 witness: a probe that always returns null, with a 3 ms timeout
and 1 ms initial interval, times out with the configured label and
timeout, every probe having started before the deadline. -/
theorem poll_times_out_when_never_done_witness :
    (poll neverDoneOpts 0).2 = some (.timedOut ⟨"w6", 3⟩) ∧
    probesBefore (poll neverDoneOpts 0).1 3 = true :=
  poll_times_out_when_never_done neverDoneOpts 0 (fun _ => rfl)
    (by decide) (by decide)

/-- C9: a poll whose total timeout is ≤ 0 ms fails immediately with the
timeout error, without invoking the probe even once — the deadline
check precedes the first probe call. -/
theorem poll_nonpositive_timeout {α : Type} (o : PollOptions α) (t0 : Int)
    (h : o.timeoutMs ≤ 0) :
    poll o t0 = ([], some (.timedOut ⟨o.label, o.timeoutMs⟩)) ∧
    probeCount (poll o t0).1 = 0 := by
  have hd : ¬ t0 < t0 + o.timeoutMs := by omega
  have heq : poll o t0 = ([], some (.timedOut ⟨o.label, o.timeoutMs⟩)) := by
    unfold poll
    simp only [pollGo]
    rw [if_neg hd]
  exact ⟨heq, by rw [heq]; rfl⟩

/-- C9 witness: a zero timeout with a probe that would be done on its
first call still times out with no probe invocation at all. -/
theorem poll_nonpositive_timeout_witness :
    poll zeroTimeoutOpts 100 = ([], some (.timedOut ⟨"w9", 0⟩)) ∧
    probeCount (poll zeroTimeoutOpts 100).1 = 0 :=
  poll_nonpositive_timeout zeroTimeoutOpts 100 (by decide)

/-- C4 witness for the amended claim: at the concrete 429-then-200
sequence with `Retry-After: 0`, the wait before the second attempt is
0 + 1000 ms. -/
theorem request_429_wait_witness :
    waitBeforeFetch (request 2 cexFetch).1 1 = some 1000 ∧
    retryAfterWaitMs (some "0") = 0 :=
  ⟨(request_429_wait Unit 2 cexFetch
      ⟨429, some "0", ⟨"rate_limited", "Too Many Requests", ""⟩, ()⟩
      (by decide) rfl rfl).2.1,
   (request_429_wait Unit 2 cexFetch
      ⟨429, some "0", ⟨"rate_limited", "Too Many Requests", ""⟩, ()⟩
      (by decide) rfl rfl).2.2.1⟩

end Prokodo
